import Mathlib

/-!
Verification of the mockttp core against its specification.

The TypeScript sources are shallowly embedded:
* `src/util/socket-util.ts` — `peekFirstByte`, `mightBeTLSHandshake`,
  `isLocalPortActive` (sockets become explicit chunk lists, bind outcomes
  become an explicit environment parameter);
* `src/mockttp.ts` — `AbstractMockttp` (constructor, `options`, `proxyEnv`,
  `urlFor`);
* the GraphQL wire schema — transcribed as a small schema AST.
-/

namespace Mockttp

/-! ## Socket utilities (src/util/socket-util.ts) -/

/-- A socket's incoming data stream, as the list of chunks the `data` events
deliver. An empty list models a socket that closes before any data arrives. -/
abbrev Chunks := List (List Nat)

/-- Embedding of `peekFirstByte(socket)`: wait for the first `data` event,
pause, `unshift(data)` (re-inject the whole chunk at the head of the stream),
and resolve with `data[0]`. The outer `Option` is `none` when no data event
ever fires (the promise never settles); the inner `Option Nat` is `data[0]`,
which is `undefined` (`none`) for an empty chunk. The second component is the
logical stream as seen downstream after the `unshift`. -/
def peekFirstByte (chunks : Chunks) : Option (Option Nat × Chunks) :=
  match chunks with
  | [] => none
  | data :: rest => some (data.head?, data :: rest)

/-- Embedding of `mightBeTLSHandshake(byte)`: `byte === 22`. -/
def mightBeTLSHandshake (byte : Nat) : Bool :=
  byte == 22

/-- The two dispatch targets of the socket demultiplexer. -/
inductive Route where
  | tls
  | http
deriving DecidableEq, Repr

/-- Modelled from the spec: the socket demultiplexer of section 4.A (the
server file that performs the dispatch is not among the sources; only
`mightBeTLSHandshake` is). For each accepted connection it peeks the first
byte and routes: `0x16` to the TLS path, anything else to the HTTP path; a
connection with no data is dropped with no route chosen. -/
def demuxRoute (chunks : Chunks) : Option Route :=
  (peekFirstByte chunks).map fun r =>
    match r.1 with
    | some b => if mightBeTLSHandshake b then Route.tls else Route.http
    | none => Route.http

/-- Loopback interface selector: `'::1'` or `'127.0.0.1'`. -/
inductive InterfaceIp where
  | ipv6Loopback
  | ipv4Loopback
deriving DecidableEq, Repr

/-- Outcome of a transient `server.listen` bind attempt: either the
`listening` event fires or the `error` event fires. -/
inductive BindOutcome where
  | listening
  | bindError
deriving DecidableEq, Repr

/-- Embedding of `isLocalPortActive(interfaceIp, port)`. The host environment
enters as parameters: `ipv6Available` is the value of the
`isLocalIPv6Available` constant, and `bind` gives the outcome of the transient
bind attempt for an interface and port. The source returns `false` at once
when the interface is `'::1'` but no IPv6 loopback exists; otherwise it binds
a throwaway server and resolves `false` on `listening`, `true` on `error`. -/
def isLocalPortActive (ipv6Available : Bool) (interfaceIp : InterfaceIp)
    (port : Nat) (bind : InterfaceIp → Nat → BindOutcome) : Bool :=
  if interfaceIp = InterfaceIp.ipv6Loopback ∧ ipv6Available = false then
    false
  else
    match bind interfaceIp port with
    | BindOutcome.listening => false
    | BindOutcome.bindError => true

/-- Modelled from the spec: the default port scan of `start()` with no
argument (section 4.H; the port-allocator implementation is not among the
sources, only its interface and test are). Scan candidate ports ascending
from `start`, `n` candidates in all, and return the first free one. -/
def scanFrom (free : Nat → Bool) (start : Nat) : Nat → Option Nat
  | 0 => none
  | n + 1 => if free start then some start else scanFrom free (start + 1) n

/-- Modelled from the spec: `start()` with no argument tries ports in
`[8000, 9000)` in ascending order and picks the first free one. -/
def defaultPortScan (free : Nat → Bool) : Option Nat :=
  scanFrom free 8000 1000

/-! ## AbstractMockttp (src/mockttp.ts) -/

/-- HTTP methods used by the rule-builder entry points. -/
inductive Method where
  | GET
  | POST
  | PUT
  | DELETE
  | PATCH
  | HEAD
  | OPTIONS
deriving DecidableEq, Repr

/-- A `url` argument to the builder entry points: a string or a regex. -/
inductive UrlMatch where
  | str (s : String)
  | regex (source : String)
deriving DecidableEq, Repr

/-- Embedding of the `MockRuleBuilder` value the entry points construct (the
builder class itself is external to these sources): the method and url the
two- and three-argument constructors record. -/
structure MockRuleBuilder where
  method : Option Method
  url : Option UrlMatch
deriving DecidableEq, Repr

/-- Embedding of `MockttpOptions`: the optional `cors` and `debug` flags
(`none` models an absent property, i.e. `undefined`). -/
structure MockttpOptions where
  cors : Option Bool := none
  debug : Option Bool := none
deriving DecidableEq, Repr

/-- Embedding of `ProxyConfig`, the shape returned by `proxyEnv`. -/
structure ProxyConfig where
  HTTP_PROXY : String
  HTTPS_PROXY : String
deriving DecidableEq, Repr

/-- Embedding of the `AbstractMockttp` state: the `cors` and `debug` fields
set by the constructor and the abstract `url` getter. -/
structure AbstractMockttp where
  cors : Bool
  debug : Bool
  url : String
deriving DecidableEq, Repr

/-- Embedding of the `AbstractMockttp` constructor:
`this.debug = options.debug || false; this.cors = options.cors || false`
(`x || false` collapses `undefined` and `false` to `false`). -/
def AbstractMockttp.construct (options : MockttpOptions) (url : String) :
    AbstractMockttp :=
  { cors := options.cors.getD false
    debug := options.debug.getD false
    url := url }

/-- Embedding of `AbstractMockttp.prototype.options(url)`: throw when `cors`
is enabled, otherwise return a builder for `OPTIONS` requests on `url`. -/
def AbstractMockttp.options (m : AbstractMockttp) (url : UrlMatch) :
    Except String MockRuleBuilder :=
  if m.cors then
    Except.error "Cannot mock OPTIONS requests with CORS enabled."
  else
    Except.ok { method := some Method.OPTIONS, url := some url }

/-- Embedding of the `proxyEnv` getter:
`{ HTTP_PROXY: this.url, HTTPS_PROXY: this.url }`. -/
def AbstractMockttp.proxyEnv (m : AbstractMockttp) : ProxyConfig :=
  { HTTP_PROXY := m.url, HTTPS_PROXY := m.url }

/-- Embedding of `urlFor(path)`: `this.url + path`. -/
def AbstractMockttp.urlFor (m : AbstractMockttp) (path : String) : String :=
  m.url ++ path

/-! ## GraphQL wire schema (the standalone-server schema source) -/

/-- GraphQL type expressions: named types, list types, and non-null
wrappers. -/
inductive GqlType where
  | named (name : String)
  | list (t : GqlType)
  | nonNull (t : GqlType)
deriving DecidableEq, Repr

/-- An argument of a GraphQL field. -/
structure GqlArg where
  name : String
  type : GqlType
deriving DecidableEq, Repr

/-- A field of a GraphQL object or input type. -/
structure GqlField where
  name : String
  args : List GqlArg
  type : GqlType
deriving DecidableEq, Repr

/-- Whether a GraphQL type expression is non-null at the top level. -/
def GqlType.isRequired : GqlType → Bool
  | GqlType.nonNull _ => true
  | _ => false

/-- The declared type of a named field, when present. -/
def fieldType (fields : List GqlField) (n : String) : Option GqlType :=
  (fields.find? fun f => f.name == n).map fun f => f.type

/-- Transcription of `type Query` from the schema source. -/
def queryFields : List GqlField :=
  [ { name := "mockedEndpoints", args := []
      type := GqlType.nonNull (GqlType.list (GqlType.nonNull
        (GqlType.named "MockedEndpoint"))) }
  , { name := "mockedEndpoint"
      args := [{ name := "id", type := GqlType.nonNull (GqlType.named "ID") }]
      type := GqlType.named "MockedEndpoint" } ]

/-- Transcription of `type Mutation` from the schema source. -/
def mutationFields : List GqlField :=
  [ { name := "addRule"
      args := [{ name := "input"
                 type := GqlType.nonNull (GqlType.named "MockRule") }]
      type := GqlType.nonNull (GqlType.named "MockedEndpoint") }
  , { name := "reset", args := []
      type := GqlType.nonNull (GqlType.named "Boolean") } ]

/-- Transcription of `type Subscription` from the schema source. -/
def subscriptionFields : List GqlField :=
  [ { name := "requestReceived", args := []
      type := GqlType.nonNull (GqlType.named "Request") }
  , { name := "responseCompleted", args := []
      type := GqlType.nonNull (GqlType.named "Response") }
  , { name := "requestAborted", args := []
      type := GqlType.nonNull (GqlType.named "Request") }
  , { name := "failedTlsRequest", args := []
      type := GqlType.nonNull (GqlType.named "TlsRequest") } ]

/-- Transcription of `type MockedEndpoint` from the schema source. -/
def mockedEndpointFields : List GqlField :=
  [ { name := "id", args := [], type := GqlType.nonNull (GqlType.named "ID") }
  , { name := "seenRequests", args := []
      type := GqlType.nonNull (GqlType.list (GqlType.nonNull
        (GqlType.named "Request"))) } ]

/-- Transcription of `input MockRule` from the schema source. -/
def mockRuleFields : List GqlField :=
  [ { name := "matchers", args := []
      type := GqlType.nonNull (GqlType.list (GqlType.nonNull
        (GqlType.named "RequestMatcher"))) }
  , { name := "handler", args := []
      type := GqlType.nonNull (GqlType.named "RequestHandler") }
  , { name := "completionChecker", args := []
      type := GqlType.named "RuleCompletionChecker" } ]

/-- Transcription of `type TlsRequest` from the schema source. -/
def tlsRequestFields : List GqlField :=
  [ { name := "failureCause", args := []
      type := GqlType.nonNull (GqlType.named "String") }
  , { name := "hostname", args := [], type := GqlType.named "String" }
  , { name := "remoteIpAddress", args := []
      type := GqlType.nonNull (GqlType.named "String") } ]

/-- Transcription of `type Request` from the schema source. -/
def requestFields : List GqlField :=
  [ { name := "id", args := [], type := GqlType.nonNull (GqlType.named "ID") }
  , { name := "protocol", args := []
      type := GqlType.nonNull (GqlType.named "String") }
  , { name := "httpVersion", args := []
      type := GqlType.nonNull (GqlType.named "String") }
  , { name := "method", args := []
      type := GqlType.nonNull (GqlType.named "String") }
  , { name := "url", args := []
      type := GqlType.nonNull (GqlType.named "String") }
  , { name := "path", args := []
      type := GqlType.nonNull (GqlType.named "String") }
  , { name := "hostname", args := []
      type := GqlType.nonNull (GqlType.named "String") }
  , { name := "headers", args := []
      type := GqlType.nonNull (GqlType.named "Json") }
  , { name := "body", args := []
      type := GqlType.nonNull (GqlType.named "Buffer") }
  , { name := "timingEvents", args := []
      type := GqlType.nonNull (GqlType.named "Json") } ]

/-- Transcription of `type Response` from the schema source. -/
def responseFields : List GqlField :=
  [ { name := "id", args := [], type := GqlType.nonNull (GqlType.named "ID") }
  , { name := "statusCode", args := []
      type := GqlType.nonNull (GqlType.named "Int") }
  , { name := "statusMessage", args := []
      type := GqlType.nonNull (GqlType.named "String") }
  , { name := "headers", args := []
      type := GqlType.nonNull (GqlType.named "Json") }
  , { name := "body", args := []
      type := GqlType.nonNull (GqlType.named "Buffer") }
  , { name := "timingEvents", args := []
      type := GqlType.nonNull (GqlType.named "Json") } ]

end Mockttp

namespace Mockttp

/-! ## Theorems -/

/-- C1: the demultiplexer routes a connection to the TLS path exactly when
its first byte is `0x16` (22) and to the HTTP path for every other first
byte; equivalently `mightBeTLSHandshake b = true` iff `b = 22`. -/
theorem c1_tls_demux_iff_22 (b : Nat) :
    (mightBeTLSHandshake b = true ↔ b = 22) ∧
    (∀ c : List Nat, ∀ rest : Chunks,
      (demuxRoute ((b :: c) :: rest) = some Route.tls ↔ b = 22) ∧
      (demuxRoute ((b :: c) :: rest) = some Route.http ↔ b ≠ 22)) := by
  refine ⟨by simp [mightBeTLSHandshake], fun c rest => ⟨?_, ?_⟩⟩ <;>
    by_cases h : b = 22 <;>
    simp [demuxRoute, peekFirstByte, mightBeTLSHandshake, h]

/-- C2: when the first emitted chunk is non-empty, `peekFirstByte` resolves
with its first byte and re-injects the whole chunk at the head of the stream,
so the flattened stream seen downstream is unchanged. -/
theorem c2_peek_preserves_stream (c : List Nat) (rest : Chunks) (h : c ≠ []) :
    ∃ b s, peekFirstByte (c :: rest) = some (some b, s) ∧
      c.head? = some b ∧ s.flatten = (c :: rest).flatten := by
  match c, h with
  | b :: tail, _ =>
    exact ⟨b, (b :: tail) :: rest, by simp [peekFirstByte], rfl, rfl⟩

/-- Witness for C2 at a concrete socket: first chunk `[22, 3]`, then `[1]`. -/
theorem c2_peek_preserves_stream_witness :
    ∃ b s, peekFirstByte ([22, 3] :: [[1]]) = some (some b, s) ∧
      ([22, 3] : List Nat).head? = some b ∧
      s.flatten = (([22, 3] :: [[1]] : Chunks)).flatten :=
  c2_peek_preserves_stream [22, 3] [[1]] (by simp)

/-- C3: a connection that closes before any byte arrives is dropped
silently: `peekFirstByte` never settles, so the demultiplexer chooses no
route and neither TLS nor HTTP handling follows. -/
theorem c3_empty_socket_dropped :
    peekFirstByte ([] : Chunks) = none ∧ demuxRoute ([] : Chunks) = none := by
  exact ⟨rfl, rfl⟩

/-- C4: registering an OPTIONS rule with CORS enabled throws; with CORS
disabled it returns a rule builder. Stated for every constructed instance:
`options url` errors iff the configured `cors` flag (defaulted to `false`)
is `true`, and returns a builder iff it is `false`. -/
theorem c4_options_cors_conflict (o : MockttpOptions) (u : String)
    (url : UrlMatch) :
    ((∃ e, (AbstractMockttp.construct o u).options url = Except.error e) ↔
      o.cors.getD false = true) ∧
    ((∃ b, (AbstractMockttp.construct o u).options url = Except.ok b) ↔
      o.cors.getD false = false) := by
  cases hc : o.cors.getD false <;>
    simp [AbstractMockttp.construct, AbstractMockttp.options, hc]

/-- C5: `isLocalPortActive` resolves `true` exactly when the transient bind
attempt errors and `false` when listening succeeds; and with interface
`'::1'` but no IPv6 loopback available it resolves `false` regardless of any
bind outcome (no bind is consulted). -/
theorem c5_port_probe (avail : Bool) (ip : InterfaceIp) (p : Nat)
    (bind : InterfaceIp → Nat → BindOutcome) :
    (¬(ip = InterfaceIp.ipv6Loopback ∧ avail = false) →
      (isLocalPortActive avail ip p bind = true ↔
        bind ip p = BindOutcome.bindError)) ∧
    (ip = InterfaceIp.ipv6Loopback → avail = false →
      ∀ bind2 : InterfaceIp → Nat → BindOutcome,
        isLocalPortActive avail ip p bind2 = false) := by
  constructor
  · intro hno
    simp only [isLocalPortActive, if_neg hno]
    cases hb : bind ip p <;> simp
  · intro h6 hav bind2
    simp [isLocalPortActive, h6, hav]

/-- Witness for C5: IPv4 loopback with an erroring bind reports the port
active. -/
theorem c5_port_probe_witness :
    isLocalPortActive true InterfaceIp.ipv4Loopback 8000
      (fun _ _ => BindOutcome.bindError) = true :=
  ((c5_port_probe true InterfaceIp.ipv4Loopback 8000
      (fun _ _ => BindOutcome.bindError)).1 (by simp)).mpr rfl

/-- Helper: a successful scan returns a port inside the scanned window that
is free, and every smaller port in the window is taken. -/
theorem scanFrom_first_free (free : Nat → Bool) :
    ∀ n s p, scanFrom free s n = some p →
      s ≤ p ∧ p < s + n ∧ free p = true ∧
      ∀ q, s ≤ q → q < p → free q = false := by
  intro n
  induction n with
  | zero =>
    intro s p h
    simp [scanFrom] at h
  | succ n ih =>
    intro s p h
    rw [scanFrom] at h
    by_cases hf : free s
    · rw [if_pos hf] at h
      injection h with h
      subst h
      exact ⟨Nat.le_refl s, by omega, hf,
        fun q hq1 hq2 => (by omega : False).elim⟩
    · rw [if_neg hf] at h
      obtain ⟨h1, h2, h3, h4⟩ := ih (s + 1) p h
      refine ⟨by omega, by omega, h3, fun q hq1 hq2 => ?_⟩
      by_cases hqs : q = s
      · subst hqs
        exact Bool.eq_false_iff.mpr hf
      · exact h4 q (by omega) hq2

/-- C6: when `start()` with no argument resolves, the chosen port is the
first free port found scanning `[8000, 9000)` ascending: it lies in the
range, it is free, and every smaller port of the range is taken. -/
theorem c6_default_port_scan (free : Nat → Bool) (p : Nat)
    (h : defaultPortScan free = some p) :
    8000 ≤ p ∧ p < 9000 ∧ free p = true ∧
    ∀ q, 8000 ≤ q → q < p → free q = false := by
  obtain ⟨h1, h2, h3, h4⟩ := scanFrom_first_free free 1000 8000 p h
  exact ⟨h1, by omega, h3, h4⟩

/-- Witness for C6: with exactly port 8005 free, the scan picks 8005, which
lies in `[8000, 9000)`. -/
theorem c6_default_port_scan_witness :
    defaultPortScan (fun q => q == 8005) = some 8005 ∧
    8000 ≤ 8005 ∧ 8005 < 9000 :=
  ⟨rfl, (c6_default_port_scan (fun q => q == 8005) 8005 rfl).1,
    (c6_default_port_scan (fun q => q == 8005) 8005 rfl).2.1⟩

/-- C7: for every instance, `proxyEnv` is the record with both `HTTP_PROXY`
and `HTTPS_PROXY` set to the instance's root URL. -/
theorem c7_proxy_env (m : AbstractMockttp) :
    m.proxyEnv = { HTTP_PROXY := m.url, HTTPS_PROXY := m.url } ∧
    m.proxyEnv.HTTP_PROXY = m.proxyEnv.HTTPS_PROXY := by
  exact ⟨rfl, rfl⟩

/-- C8: the wire protocol exposes the operations of the spec with matching
result shapes: the `mockedEndpoints` query returns a non-null list of
endpoint handles, a handle carries an id and its seen requests, the
`addRule` mutation takes a `MockRule` (matcher list, one handler, optional
completion checker) and returns a handle, the `reset` mutation returns a
boolean, and the four subscriptions emit the `Request`, `Response` and
`TlsRequest` records of the data model. -/
theorem c8_wire_protocol :
    fieldType queryFields "mockedEndpoints" =
      some (GqlType.nonNull (GqlType.list (GqlType.nonNull
        (GqlType.named "MockedEndpoint")))) ∧
    mockedEndpointFields =
      [ { name := "id", args := []
          type := GqlType.nonNull (GqlType.named "ID") }
      , { name := "seenRequests", args := []
          type := GqlType.nonNull (GqlType.list (GqlType.nonNull
            (GqlType.named "Request"))) } ] ∧
    mutationFields =
      [ { name := "addRule"
          args := [{ name := "input"
                     type := GqlType.nonNull (GqlType.named "MockRule") }]
          type := GqlType.nonNull (GqlType.named "MockedEndpoint") }
      , { name := "reset", args := []
          type := GqlType.nonNull (GqlType.named "Boolean") } ] ∧
    (mockRuleFields.map fun f => f.name) =
      ["matchers", "handler", "completionChecker"] ∧
    fieldType mockRuleFields "matchers" =
      some (GqlType.nonNull (GqlType.list (GqlType.nonNull
        (GqlType.named "RequestMatcher")))) ∧
    fieldType mockRuleFields "handler" =
      some (GqlType.nonNull (GqlType.named "RequestHandler")) ∧
    fieldType mockRuleFields "completionChecker" =
      some (GqlType.named "RuleCompletionChecker") ∧
    subscriptionFields =
      [ { name := "requestReceived", args := []
          type := GqlType.nonNull (GqlType.named "Request") }
      , { name := "responseCompleted", args := []
          type := GqlType.nonNull (GqlType.named "Response") }
      , { name := "requestAborted", args := []
          type := GqlType.nonNull (GqlType.named "Request") }
      , { name := "failedTlsRequest", args := []
          type := GqlType.nonNull (GqlType.named "TlsRequest") } ] ∧
    (requestFields.map fun f => f.name) =
      ["id", "protocol", "httpVersion", "method", "url", "path",
       "hostname", "headers", "body", "timingEvents"] ∧
    (responseFields.map fun f => f.name) =
      ["id", "statusCode", "statusMessage", "headers", "body",
       "timingEvents"] :=
  ⟨rfl, rfl, rfl, rfl, rfl, rfl, rfl, rfl, rfl, rfl⟩

/-- C9: in the `TlsRequest` record the failure cause and the remote IP
address are required non-null strings, while the hostname is an optional
(nullable) string. -/
theorem c9_tls_request_fields :
    fieldType tlsRequestFields "failureCause" =
      some (GqlType.nonNull (GqlType.named "String")) ∧
    fieldType tlsRequestFields "remoteIpAddress" =
      some (GqlType.nonNull (GqlType.named "String")) ∧
    fieldType tlsRequestFields "hostname" =
      some (GqlType.named "String") ∧
    (fieldType tlsRequestFields "failureCause").map GqlType.isRequired =
      some true ∧
    (fieldType tlsRequestFields "remoteIpAddress").map GqlType.isRequired =
      some true ∧
    (fieldType tlsRequestFields "hostname").map GqlType.isRequired =
      some false :=
  ⟨rfl, rfl, rfl, rfl, rfl, rfl⟩

/-- C10: `urlFor path` is the plain concatenation of the root URL and the
path, with no separator or normalization; in particular `urlFor ""` is the
root URL itself. -/
theorem c10_url_for (m : AbstractMockttp) (path : String) :
    m.urlFor path = m.url ++ path ∧ m.urlFor "" = m.url := by
  refine ⟨rfl, ?_⟩
  simp [AbstractMockttp.urlFor]

end Mockttp
